import Mathlib

/-!
# product-api — shallow embedding of the stock-adjustment core

This file embeds the stock-adjustment core of the `product-api` service:
the `Product` entity with its optimistic-locking `version` column
(`app/models/product.py`), the repository layer
(`app/repositories/product_repository.py`), the service layer
(`app/services/product_service.py`), the order-event handlers
(`app/infra/events/handlers.py`), the consumer dispatch table
(`app/main.py`) and the RabbitMQ publish/consume adapter
(`app/infra/events/rabbitmq.py`).

Modelling decisions, all taken from the source:

* The SQLAlchemy `Session` is modelled as a pair of stores
  (`committed`, `pending`): reads and writes act on `pending`,
  `db.commit()` copies `pending` over `committed`, `db.rollback()`
  restores `pending` from `committed`.  Crucially, the repository
  functions (`create_product`, `update_product`, `delete_product`)
  each call `db.commit()` *internally*, exactly as the source does.
* The optimistic-lock column: `version_id_col` with generator
  `lambda v: (v or 0) + 1` bumps the version on every UPDATE that the
  flush actually emits.  SQLAlchemy's unit of work emits an UPDATE for
  a row only when at least one attribute has a *net* change (an
  attribute set to a value equal to the loaded one produces no UPDATE),
  so a patch that leaves every field unchanged commits nothing and does
  not advance `version`.
* `RabbitMQ.publish_message` swallows all failures (unavailable
  exchange, publish exception): the model records every call in
  `attempts` and appends to `delivered` only when the exchange is
  available (`connected`).
* Floats (`price`, `vat_rate`) are irrelevant to the stock logic; the
  model carries `price` as an `Int`.
* The model is sequential: `StaleDataError` from the storage-level
  compare-and-swap can only arise from a concurrent writer and has no
  sequential trigger, so only the service-level `expected_version`
  pre-check can raise a version conflict here.
-/

/-- `Product` row (`app/models/product.py`), restricted to the fields the
stock core reads or writes.  `version` is the optimistic-lock token,
`server_default` 1. -/
structure Product where
  id : Nat
  sku : String
  name : String
  price : Int
  quantity : Int
  isActive : Bool
  version : Nat
deriving DecidableEq, Repr

/-- The products table. -/
abbrev Store := List Product

/-- `db.get(Product, product_id)` — first row with the given id. -/
def getProduct (s : Store) (pid : Nat) : Option Product :=
  s.find? (fun p => p.id == pid)

/-- `select(Product).where(Product.sku == sku)` — first row with the sku. -/
def getBySku (s : Store) (sku : String) : Option Product :=
  s.find? (fun p => p.sku == sku)

/-- Replace the row(s) with `p.id` by `p`. -/
def putProduct (s : Store) (p : Product) : Store :=
  s.map (fun q => if q.id == p.id then p else q)

/-- SQLAlchemy `Session`, reduced to its transactional content: the
rows visible to reads (`pending`) and the rows durably committed
(`committed`). -/
structure Session where
  committed : Store
  pending : Store
deriving DecidableEq, Repr

/-- `db.commit()`. -/
def Session.commit (s : Session) : Session := ⟨s.pending, s.pending⟩

/-- `db.rollback()` — discards pending, keeps committed. -/
def Session.rollback (s : Session) : Session := ⟨s.committed, s.committed⟩

/-- `ProductUpdate` (`app/schemas/product_schema.py`): partial patch,
only supplied (`some`) fields are applied (`exclude_unset`). -/
structure ProductUpdate where
  sku : Option String := none
  name : Option String := none
  price : Option Int := none
  quantity : Option Int := none
  isActive : Option Bool := none
deriving DecidableEq, Repr

/-- `ProductCreate` (`app/schemas/product_schema.py`). -/
structure ProductCreate where
  sku : String
  name : String
  price : Int
  quantity : Int
  isActive : Bool := true
deriving DecidableEq, Repr

/-- `for key, value in data.model_dump(exclude_unset=True): setattr(...)`. -/
def applyPatch (p : Product) (u : ProductUpdate) : Product :=
  { p with
    sku := u.sku.getD p.sku
    name := u.name.getD p.name
    price := u.price.getD p.price
    quantity := u.quantity.getD p.quantity
    isActive := u.isActive.getD p.isActive }

/-- Low-level storage error surfaced by the repository
(`IntegrityError` on the sku unique constraint). -/
inductive RepoErr | integrity
deriving DecidableEq, Repr

/-- Another row already holds this sku (unique constraint
`uq_product_sku`). -/
def skuConflict (s : Store) (pid : Nat) (sku : String) : Bool :=
  s.any (fun q => q.sku == sku && q.id != pid)

/-- Fresh surrogate id for an INSERT. -/
def nextId (s : Store) : Nat := (s.map (·.id)).foldr max 0 + 1

/-- `product_repository.create_product`: INSERT + `db.commit()`;
`IntegrityError` + `db.rollback()` if the sku is taken.  A created row
has `version = 1` (server default). -/
def create_product (s : Session) (d : ProductCreate) :
    Except RepoErr Product × Session :=
  if s.pending.any (fun q => q.sku == d.sku) then
    (.error .integrity, s.rollback)
  else
    let p : Product := ⟨nextId s.pending, d.sku, d.name, d.price, d.quantity, d.isActive, 1⟩
    (.ok p, (Session.mk s.committed (s.pending ++ [p])).commit)

/-- `product_repository.update_product`: read the row, `setattr` each
supplied field, then `db.commit()` — the commit happens *inside* the
repository call.  Flush semantics: if no attribute has a net change, no
UPDATE is emitted and `version` stays; otherwise the UPDATE bumps
`version` by 1 (`version_id_generator`).  An UPDATE violating the sku
unique constraint raises `IntegrityError` and rolls back. -/
def update_product (s : Session) (pid : Nat) (u : ProductUpdate) :
    Except RepoErr (Option Product) × Session :=
  match getProduct s.pending pid with
  | none => (.ok none, s)
  | some p =>
    let p' := applyPatch p u
    if p' = p then
      (.ok (some p), s.commit)
    else if skuConflict s.pending pid p'.sku then
      (.error .integrity, s.rollback)
    else
      let p2 : Product := { p' with version := p.version + 1 }
      (.ok (some p2), (Session.mk s.committed (putProduct s.pending p2)).commit)

/-- `product_repository.delete_product`: DELETE + `db.commit()`. -/
def delete_product (s : Session) (pid : Nat) : Option Product × Session :=
  match getProduct s.pending pid with
  | none => (none, s)
  | some p =>
    (some p, (Session.mk s.committed (s.pending.filter (fun q => q.id != pid))).commit)

/-- Outbound events, with the payload fields the source puts in each
(`app/services/product_service.py`, `app/infra/events/handlers.py`). -/
inductive PubEvent
  | productCreated (pid : Nat) (sku name : String) (price : Int)
  | productUpdated (pid : Nat) (sku name : String) (price : Int)
  | productDeleted (pid : Nat) (sku : String)
  | productActivated (pid : Nat) (sku : String)
  | productDeactivated (pid : Nat) (sku : String)
  | orderRejectedItems (oid : Option Nat) (items : List (Nat × Int))
  | orderRejectedDeltas (oid : Option Nat) (deltas : List (Nat × Int))
  | orderPriceCalculated (oid : Option Nat) (cid : Option Nat) (total : Int)
deriving DecidableEq, Repr

/-- State of the `RabbitMQ` adapter (`app/infra/events/rabbitmq.py`).
`connected` is whether `self.exchange` is available and publishing to it
succeeds; `attempts` records every `publish_message` call; `delivered`
records the messages that actually reached the exchange. -/
structure MQState where
  connected : Bool
  attempts : List PubEvent := []
  delivered : List PubEvent := []
deriving DecidableEq, Repr

/-- `RabbitMQ.publish_message`: when the exchange is missing it logs and
returns; when `exchange.publish` raises it logs and returns.  It never
raises to the caller, so a failed delivery is invisible to the service. -/
def publish_message (m : MQState) (e : PubEvent) : MQState :=
  { m with
    attempts := m.attempts ++ [e]
    delivered := if m.connected then m.delivered ++ [e] else m.delivered }

/-- Domain errors raised by `ProductService`
(`NotFoundError`, `SKUAlreadyExistsError`, `ConcurrencyConflictError`,
`InsufficientStockError`). -/
inductive SvcErr | notFound | skuExists | versionConflict | insufficientStock
deriving DecidableEq, Repr

/-- The world a `ProductService` call touches: the DB session and the
message-queue singleton. -/
structure W where
  session : Session
  mq : MQState
deriving DecidableEq, Repr

/-- `ProductService.get` (read-only). -/
def svcGet (w : W) (pid : Nat) : Except SvcErr Product :=
  match getProduct w.session.pending pid with
  | none => .error .notFound
  | some p => .ok p

/-- `ProductService.create`: sku pre-check, repository insert
(converting `IntegrityError` to the sku error), then publish
`product.created`. -/
def svcCreate (w : W) (d : ProductCreate) : Except SvcErr Product × W :=
  if (getBySku w.session.pending d.sku).isSome then
    (.error .skuExists, w)
  else
    match create_product w.session d with
    | (.error .integrity, s') => (.error .skuExists, ⟨s', w.mq⟩)
    | (.ok p, s') =>
      (.ok p, ⟨s', publish_message w.mq (.productCreated p.id p.sku p.name p.price)⟩)

/-- `ProductService.update`: read current row (`NotFoundError` if
absent); fast pre-check of `expected_version` (`ConcurrencyConflictError`
before any storage write); repository update (converting
`IntegrityError` to the sku error); publish `product.updated`.
The `.ok none` repository arm cannot occur sequentially (the row was
just read) — the source would crash there with an `AttributeError`. -/
def svcUpdate (w : W) (pid : Nat) (u : ProductUpdate)
    (expectedVersion : Option Nat) : Except SvcErr Product × W :=
  match getProduct w.session.pending pid with
  | none => (.error .notFound, w)
  | some cur =>
    let conflict := match expectedVersion with
      | some ev => cur.version != ev
      | none => false
    if conflict then
      (.error .versionConflict, w)
    else
      match update_product w.session pid u with
      | (.error .integrity, s') => (.error .skuExists, ⟨s', w.mq⟩)
      | (.ok none, s') => (.error .notFound, ⟨s', w.mq⟩)
      | (.ok (some p), s') =>
        (.ok p, ⟨s', publish_message w.mq (.productUpdated p.id p.sku p.name p.price)⟩)

/-- `ProductService.delete`: repository delete, publish
`product.deleted`. -/
def svcDelete (w : W) (pid : Nat) : Except SvcErr Product × W :=
  match delete_product w.session pid with
  | (none, _) => (.error .notFound, w)
  | (some p, s') =>
    (.ok p, ⟨s', publish_message w.mq (.productDeleted p.id p.sku)⟩)

/-- `ProductService.adjust_stock`: read, `new_qty = quantity + delta`;
raise `InsufficientStockError` when `new_qty < 0` (nothing written);
otherwise delegate to `update` with the new quantity. -/
def svcAdjustStock (w : W) (pid : Nat) (delta : Int) :
    Except SvcErr Product × W :=
  match svcGet w pid with
  | .error e => (.error e, w)
  | .ok p =>
    let newQty := p.quantity + delta
    if newQty < 0 then (.error .insufficientStock, w)
    else svcUpdate w pid { quantity := some newQty } none

/-- `ProductService.set_active`: delegate to `update` with the flag
(which publishes `product.updated`), then publish `product.activated`
or `product.deactivated`. -/
def svcSetActive (w : W) (pid : Nat) (flag : Bool) :
    Except SvcErr Product × W :=
  match svcUpdate w pid { isActive := some flag } none with
  | (.error e, w') => (.error e, w')
  | (.ok p, w') =>
    let ev := if flag then PubEvent.productActivated p.id p.sku
              else PubEvent.productDeactivated p.id p.sku
    (.ok p, ⟨w'.session, publish_message w'.mq ev⟩)

/-!
## Order-event handlers (`app/infra/events/handlers.py`)
-/

/-- Inbound order-event payload.  Raw `items` / `deltas` entries are
either a parsed `(product_id, value)` pair or `none` for an entry whose
`int(...)` conversion raised (dropped with a warning). -/
structure OrderPayload where
  oid : Option Nat := none
  customerId : Option Nat := none
  status : Option String := none
  items : List (Option (Nat × Int)) := []
  deltas : List (Option (Nat × Int)) := []
deriving DecidableEq, Repr

/-- `_clean_items`: drop malformed entries and entries with a negative
quantity. -/
def cleanItems (p : OrderPayload) : List (Nat × Int) :=
  (p.items.filterMap id).filter (fun it => !(it.2 < 0))

/-- `_clean_deltas`: drop malformed entries and zero deltas. -/
def cleanDeltas (p : OrderPayload) : List (Nat × Int) :=
  (p.deltas.filterMap id).filter (fun d => d.2 != 0)

/-- Result of a handler call: normal return, or an uncaught exception
propagating to the consumer loop. -/
inductive HandlerOutcome
  | ok (w : W)
  | raised (w : W)
deriving DecidableEq, Repr

/-- Outcome of the read-only availability pre-check loop
(`svc.get` + `available < qty` comparison).  `missing` is the uncaught
`NotFoundError` from `svc.get`; `insufficient` is the
`InsufficientStockError` the handler raises and catches itself. -/
inductive CheckResult | pass | insufficient | missing
deriving DecidableEq, Repr

/-- Phase 1 of `handle_order_created`: for every item check
`available >= quantity` against the *current* (unadjusted) store. -/
def checkItems (s : Store) : List (Nat × Int) → CheckResult
  | [] => .pass
  | (pid, qty) :: rest =>
    match getProduct s pid with
    | none => .missing
    | some p => if p.quantity < qty then .insufficient else checkItems s rest

/-- Phase 2 of `handle_order_created`: `svc.adjust_stock(pid, -qty)` for
each item in order, stopping at the first error. -/
def applyItems (w : W) : List (Nat × Int) → Option SvcErr × W
  | [] => (none, w)
  | (pid, qty) :: rest =>
    match svcAdjustStock w pid (-qty) with
    | (.ok _, w') => applyItems w' rest
    | (.error e, w') => (some e, w')

/-- `handle_order_created`: clean items (empty → no-op); availability
pre-check on all items; then apply all adjustments; a caught
`InsufficientStockError` (from either phase) triggers `db.rollback()`
and one `order.rejected` publish; any other exception (e.g.
`NotFoundError`) propagates. -/
def handle_order_created (payload : OrderPayload) (w : W) : HandlerOutcome :=
  let items := cleanItems payload
  if items.isEmpty then .ok w
  else
    match checkItems w.session.pending items with
    | .missing => .raised w
    | .insufficient =>
      let w' : W := ⟨w.session.rollback,
        publish_message w.mq (.orderRejectedItems payload.oid items)⟩
      .ok w'
    | .pass =>
      match applyItems w items with
      | (none, w') => .ok ⟨w'.session.commit, w'.mq⟩
      | (some .insufficientStock, w') =>
        let w'' : W := ⟨w'.session.rollback,
          publish_message w'.mq (.orderRejectedItems payload.oid items)⟩
        .ok w''
      | (some _, w') => .raised w'

/-- Phase 1 of `handle_order_items_delta`: only positive deltas
(additional reservations) are availability-checked. -/
def checkDeltas (s : Store) : List (Nat × Int) → CheckResult
  | [] => .pass
  | (pid, d) :: rest =>
    if 0 < d then
      match getProduct s pid with
      | none => .missing
      | some p => if p.quantity < d then .insufficient else checkDeltas s rest
    else checkDeltas s rest

/-- Phase 2 of `handle_order_items_delta`:
`svc.adjust_stock(pid, -delta)` for each delta in order. -/
def applyDeltas (w : W) : List (Nat × Int) → Option SvcErr × W
  | [] => (none, w)
  | (pid, d) :: rest =>
    match svcAdjustStock w pid (-d) with
    | (.ok _, w') => applyDeltas w' rest
    | (.error e, w') => (some e, w')

/-- `handle_order_items_delta`: clean deltas (empty → no-op); check the
positive deltas; apply `-delta` to each product's stock; a caught
`InsufficientStockError` triggers `db.rollback()` and one
`order.rejected` publish. -/
def handle_order_items_delta (payload : OrderPayload) (w : W) : HandlerOutcome :=
  let deltas := cleanDeltas payload
  if deltas.isEmpty then .ok w
  else
    match checkDeltas w.session.pending deltas with
    | .missing => .raised w
    | .insufficient =>
      let w' : W := ⟨w.session.rollback,
        publish_message w.mq (.orderRejectedDeltas payload.oid deltas)⟩
      .ok w'
    | .pass =>
      match applyDeltas w deltas with
      | (none, w') => .ok ⟨w'.session.commit, w'.mq⟩
      | (some .insufficientStock, w') =>
        let w'' : W := ⟨w'.session.rollback,
          publish_message w'.mq (.orderRejectedDeltas payload.oid deltas)⟩
        .ok w''
      | (some _, w') => .raised w'

/-- Restock loop shared by `handle_order_cancelled` and
`handle_order_deleted`: `svc.adjust_stock(pid, +qty)` for each item;
no `try`/`except` in the source, so any error propagates. -/
def applyRestock (w : W) : List (Nat × Int) → Option SvcErr × W
  | [] => (none, w)
  | (pid, qty) :: rest =>
    match svcAdjustStock w pid qty with
    | (.ok _, w') => applyRestock w' rest
    | (.error e, w') => (some e, w')

/-- `handle_order_cancelled`: re-inject the whole reservation. -/
def handle_order_cancelled (payload : OrderPayload) (w : W) : HandlerOutcome :=
  let items := cleanItems payload
  if items.isEmpty then .ok w
  else
    match applyRestock w items with
    | (none, w') => .ok ⟨w'.session.commit, w'.mq⟩
    | (some _, w') => .raised w'

/-- `handle_order_rejected`: log only, never touches stock. -/
def handle_order_rejected (_payload : OrderPayload) (w : W) : HandlerOutcome :=
  .ok w

/-- `handle_order_deleted`: no items → no-op; `status == "rejected"` →
no-op; otherwise restock like `cancelled`. -/
def handle_order_deleted (payload : OrderPayload) (w : W) : HandlerOutcome :=
  let items := cleanItems payload
  if items.isEmpty then .ok w
  else if (payload.status.getD "").toLower == "rejected" then .ok w
  else
    match applyRestock w items with
    | (none, w') => .ok ⟨w'.session.commit, w'.mq⟩
    | (some _, w') => .raised w'

/-- `handle_order_updated`: informational only, never mutates stock. -/
def handle_order_updated (_payload : OrderPayload) (w : W) : HandlerOutcome :=
  .ok w

/-- Sum of `unit_price * quantity` over items at current catalog prices;
`none` when a referenced product is missing (`svc.get` raises). -/
def totalPrice (s : Store) : List (Nat × Int) → Option Int
  | [] => some 0
  | (pid, qty) :: rest =>
    match getProduct s pid with
    | none => none
    | some p => (totalPrice s rest).map (fun t => p.price * qty + t)

/-- Modelled from the spec: `handle_order_price_request` is imported by
`src/app/main.py` and exercised by the unit tests but its definition is
absent from `src/app/infra/events/handlers.py`.  Per spec §4.5
(`order.request_price` row): if `customer_id` or `items` is missing,
log and abort with no publish; otherwise compute
`sum(unitPrice * quantity)` over the items at current catalog prices and
publish `order.price_calculated` with the total. -/
def handle_order_price_request (payload : OrderPayload) (w : W) : HandlerOutcome :=
  let items := cleanItems payload
  if payload.customerId.isNone || items.isEmpty then .ok w
  else
    match totalPrice w.session.pending items with
    | none => .raised w
    | some t =>
      .ok ⟨w.session,
        publish_message w.mq (.orderPriceCalculated payload.oid payload.customerId t)⟩

/-- Modelled from the spec: `handle_order_ready_for_stock` is imported
by `src/app/main.py` and exercised by the unit tests but its definition
is absent from `src/app/infra/events/handlers.py`.  The spec's §4.5
table gives `order.ready_for_stock` the same row as `order.created`
(availability pre-check over all items, then decrement each item's
quantity, publishing one `order.rejected` on violation), so the model
reuses the `order.created` handler body. -/
def handle_order_ready_for_stock (payload : OrderPayload) (w : W) : HandlerOutcome :=
  handle_order_created payload w

/-!
## Consumer dispatch (`app/main.py`) and the broker loop
(`app/infra/events/rabbitmq.py`)
-/

/-- The handlers wired in `consumer_handler` (`app/main.py`). -/
inductive RouteTarget
  | itemsDelta | cancelled | rejected | deleted | updated
  | priceRequest | readyForStock
deriving DecidableEq, Repr

/-- The exact `if rk == ... elif ...` chain of `consumer_handler` in
`app/main.py`.  Any other routing key falls into the `else` branch,
which only logs `event ignoré`. -/
def consumerRoute (rk : String) : Option RouteTarget :=
  if rk = "order.items_delta" then some .itemsDelta
  else if rk = "order.cancelled" then some .cancelled
  else if rk = "order.rejected" then some .rejected
  else if rk = "order.deleted" then some .deleted
  else if rk = "order.updated" then some .updated
  else if rk = "order.request_price" then some .priceRequest
  else if rk = "order.ready_for_stock" then some .readyForStock
  else none

/-- `consumer_handler` (`app/main.py`): dispatch by routing key;
unmatched keys are logged and dropped without touching the store. -/
def consumerHandle (rk : String) (payload : OrderPayload) (w : W) : HandlerOutcome :=
  match consumerRoute rk with
  | some .itemsDelta => handle_order_items_delta payload w
  | some .cancelled => handle_order_cancelled payload w
  | some .rejected => handle_order_rejected payload w
  | some .deleted => handle_order_deleted payload w
  | some .updated => handle_order_updated payload w
  | some .priceRequest => handle_order_price_request payload w
  | some .readyForStock => handle_order_ready_for_stock payload w
  | none => .ok w

/-- One message through the body of the consumer loop in
`start_consumer` (`app/infra/events/rabbitmq.py`): the handler call is
wrapped in `try: await handler(...) except Exception: logger.exception`,
so an exception never escapes the `async with message.process()` block
and the message is acknowledged in every case.  The return type leaves
room for an exception propagating to the broker layer (`.error`), which
the code never produces; the `Bool` is whether the message was
acknowledged. -/
def consumeMessage (rk : String) (payload : OrderPayload) (w : W) :
    Except Unit (Bool × W) :=
  match consumerHandle rk payload w with
  | .ok w' => .ok (true, w')
  | .raised w' => .ok (true, w')

/-!
## Lemma layer
-/

/-- A one-product catalog used by the concrete scenarios:
product 1, sku `SKU1`, price 5, quantity 10, version 1. -/
def sampleProduct : Product := ⟨1, "SKU1", "widget", 5, 10, true, 1⟩

/-- A clean session over the one-product catalog. -/
def sampleSession : Session := ⟨[sampleProduct], [sampleProduct]⟩

/-- World with the exchange available. -/
def sampleW : W := ⟨sampleSession, ⟨true, [], []⟩⟩

/-- World with the exchange unavailable (`connect()` not called or
publish failing). -/
def sampleWOffline : W := ⟨sampleSession, ⟨false, [], []⟩⟩

/-- Every persisted quantity is non-negative (the `quantity >= 0`
check constraint). -/
def storeNonneg (s : Store) : Prop := ∀ p ∈ s, 0 ≤ p.quantity

theorem getProduct_mem {s : Store} {pid : Nat} {p : Product}
    (h : getProduct s pid = some p) : p ∈ s :=
  List.mem_of_find?_eq_some h

theorem getProduct_id {s : Store} {pid : Nat} {p : Product}
    (h : getProduct s pid = some p) : p.id = pid := by
  have h2 := List.find?_some (p := fun q : Product => q.id == pid) h
  simpa using h2

theorem putProduct_nonneg {s : Store} {p : Product}
    (hs : storeNonneg s) (hp : 0 ≤ p.quantity) :
    storeNonneg (putProduct s p) := by
  intro q hq
  rcases List.mem_map.mp hq with ⟨r, hr, hrq⟩
  by_cases h : (r.id == p.id) = true
  · rw [if_pos h] at hrq
    exact hrq ▸ hp
  · rw [if_neg h] at hrq
    exact hrq ▸ hs r hr

theorem getProduct_putProduct {s : Store} {pid : Nat} {cur p2 : Product}
    (h : getProduct s pid = some cur) (hid : p2.id = cur.id) :
    getProduct (putProduct s p2) pid = some p2 := by
  have hcur : cur.id = pid := getProduct_id h
  induction s with
  | nil => simp [getProduct] at h
  | cons q rest ih =>
    unfold getProduct putProduct at *
    by_cases hq : (q.id == pid) = true
    · rw [List.find?_cons_of_pos (p := fun r : Product => r.id == pid) _ hq] at h
      have hqc : q = cur := by injection h
      subst hqc
      have h1 : (q.id == p2.id) = true := by
        simp [hid]
      have h2 : (p2.id == pid) = true := by
        simp [hid, hcur]
      simp only [List.map_cons, if_pos h1]
      exact List.find?_cons_of_pos (p := fun r : Product => r.id == pid) _ h2
    · rw [List.find?_cons_of_neg (p := fun r : Product => r.id == pid) _ hq] at h
      have h1 : ¬(q.id == p2.id) = true := by
        rw [hid, hcur]; exact hq
      simp only [List.map_cons, if_neg h1]
      rw [List.find?_cons_of_neg (p := fun r : Product => r.id == pid) _ hq]
      exact ih h

/-- The row written by a successful UPDATE: the patched fields plus the
version bump. -/
def bumped (cur : Product) (u : ProductUpdate) : Product :=
  { applyPatch cur u with version := cur.version + 1 }

theorem update_product_some {s : Session} {pid : Nat} {u : ProductUpdate}
    {cur : Product} (hg : getProduct s.pending pid = some cur) :
    update_product s pid u =
      (if applyPatch cur u = cur then ((.ok (some cur) : Except RepoErr (Option Product)), s.commit)
       else if skuConflict s.pending pid (applyPatch cur u).sku then
         (.error .integrity, s.rollback)
       else
         (.ok (some (bumped cur u)),
          (Session.mk s.committed (putProduct s.pending (bumped cur u))).commit)) := by
  unfold update_product bumped
  rw [hg]

theorem svcUpdate_conflict {w : W} {pid : Nat} {u : ProductUpdate}
    {cur : Product} {ev : Nat}
    (hg : getProduct w.session.pending pid = some cur)
    (hv : ev ≠ cur.version) :
    svcUpdate w pid u (some ev) = (.error .versionConflict, w) := by
  unfold svcUpdate
  rw [hg]
  simp only
  rw [if_pos (by simpa using (Ne.symm hv))]

theorem svcUpdate_ok_cases {w : W} {pid : Nat} {u : ProductUpdate}
    {ev : Option Nat} {p : Product} {w' : W}
    (h : svcUpdate w pid u ev = (.ok p, w')) :
    ∃ cur, getProduct w.session.pending pid = some cur ∧
      w'.mq = publish_message w.mq (.productUpdated p.id p.sku p.name p.price) ∧
      ((applyPatch cur u = cur ∧ p = cur ∧ w'.session = w.session.commit) ∨
       (applyPatch cur u ≠ cur ∧ p = bumped cur u ∧
        w'.session = Session.mk (putProduct w.session.pending p)
          (putProduct w.session.pending p))) := by
  unfold svcUpdate at h
  cases hg : getProduct w.session.pending pid with
  | none => rw [hg] at h; exact absurd h (by simp)
  | some cur =>
    rw [hg] at h
    simp only at h
    refine ⟨cur, rfl, ?_⟩
    split at h
    · exact absurd h (by simp)
    · rw [update_product_some hg] at h
      by_cases h1 : applyPatch cur u = cur
      · rw [if_pos h1] at h
        simp only at h
        injection h with hp hw
        injection hp with hpc
        subst hpc
        exact ⟨by rw [← hw], Or.inl ⟨h1, rfl, by rw [← hw]⟩⟩
      · rw [if_neg h1] at h
        by_cases h2 : skuConflict w.session.pending pid (applyPatch cur u).sku
        · rw [if_pos h2] at h
          exact absurd h (by simp)
        · rw [if_neg h2] at h
          simp only at h
          injection h with hp hw
          injection hp with hpc
          obtain rfl : p = bumped cur u := by
            cases hpc; rfl
          refine ⟨by rw [← hw], Or.inr ⟨h1, rfl, by rw [← hw]; rfl⟩⟩

theorem svcUpdate_error_frame {w : W} {pid : Nat} {u : ProductUpdate}
    {ev : Option Nat} {e : SvcErr} {w' : W}
    (hsync : w.session.pending = w.session.committed)
    (h : svcUpdate w pid u ev = (.error e, w')) : w' = w := by
  have hses : w.session.rollback = w.session := by
    cases hs : w.session with
    | mk c pend =>
      have : pend = c := by rw [hs] at hsync; exact hsync
      subst this; rfl
  unfold svcUpdate at h
  cases hg : getProduct w.session.pending pid with
  | none =>
    rw [hg] at h
    injection h with _ hw
    exact hw.symm
  | some cur =>
    rw [hg] at h
    simp only at h
    split at h
    · injection h with _ hw
      exact hw.symm
    · rw [update_product_some hg] at h
      by_cases h1 : applyPatch cur u = cur
      · rw [if_pos h1] at h
        exact absurd h (by simp)
      · rw [if_neg h1] at h
        by_cases h2 : skuConflict w.session.pending pid (applyPatch cur u).sku
        · rw [if_pos h2] at h
          simp only at h
          injection h with _ hw
          cases hw
          cases w
          simp only [W.mk.injEq]
          exact ⟨hses, trivial⟩
        · rw [if_neg h2] at h
          exact absurd h (by simp)

theorem create_product_ok {s : Session} {d : ProductCreate} {p : Product}
    {s2 : Session} (h : create_product s d = (.ok p, s2)) :
    p.version = 1 ∧ s2 = Session.mk (s.pending ++ [p]) (s.pending ++ [p]) := by
  unfold create_product at h
  split at h
  · exact absurd h (by simp)
  · injection h with hp hs
    injection hp with hpc
    subst hpc
    exact ⟨rfl, by rw [← hs]; rfl⟩

theorem svcCreate_ok {w : W} {d : ProductCreate} {p : Product} {w' : W}
    (h : svcCreate w d = (.ok p, w')) :
    p.version = 1 ∧
    w'.mq = publish_message w.mq (.productCreated p.id p.sku p.name p.price) ∧
    w'.session = Session.mk (w.session.pending ++ [p]) (w.session.pending ++ [p]) := by
  unfold svcCreate at h
  split at h
  · exact absurd h (by simp)
  · cases hc : create_product w.session d with
    | mk r s2 =>
      rw [hc] at h
      cases r with
      | error e => cases e; exact absurd h (by simp)
      | ok q =>
        injection h with hp hw
        injection hp with hpc
        subst hpc
        obtain ⟨hv, hs2⟩ := create_product_ok hc
        exact ⟨hv, by rw [← hw], by rw [← hw]; exact hs2⟩

theorem svcCreate_error_frame {w : W} {d : ProductCreate} {e : SvcErr} {w' : W}
    (h : svcCreate w d = (.error e, w')) : w' = w := by
  unfold svcCreate at h
  split at h
  · injection h with _ hw
    exact hw.symm
  · rename_i hsku
    cases hc : create_product w.session d with
    | mk r s2 =>
      rw [hc] at h
      cases r with
      | ok q => exact absurd h (by simp)
      | error re =>
        cases re
        exfalso
        apply hsku
        unfold create_product at hc
        split at hc
        · rename_i hany
          rcases List.any_eq_true.mp hany with ⟨q, hq, hqs⟩
          unfold getBySku
          exact List.find?_isSome.mpr ⟨q, hq, hqs⟩
        · exact absurd hc (by simp)

theorem delete_product_some {s : Session} {pid : Nat} {p : Product}
    {s2 : Session} (h : delete_product s pid = (some p, s2)) :
    s2.pending = s2.committed := by
  unfold delete_product at h
  split at h
  · exact absurd h (by simp)
  · injection h with _ hs
    rw [← hs]
    rfl

theorem svcDelete_ok {w : W} {pid : Nat} {p : Product} {w' : W}
    (h : svcDelete w pid = (.ok p, w')) :
    w'.mq = publish_message w.mq (.productDeleted p.id p.sku) ∧
    w'.session.pending = w'.session.committed := by
  unfold svcDelete at h
  cases hc : delete_product w.session pid with
  | mk r s2 =>
    rw [hc] at h
    cases r with
    | none => exact absurd h (by simp)
    | some q =>
      injection h with hp hw
      injection hp with hpc
      subst hpc
      exact ⟨by rw [← hw], by rw [← hw]; exact delete_product_some hc⟩

theorem svcDelete_error_frame {w : W} {pid : Nat} {e : SvcErr} {w' : W}
    (h : svcDelete w pid = (.error e, w')) : w' = w := by
  unfold svcDelete at h
  cases hc : delete_product w.session pid with
  | mk r s2 =>
    rw [hc] at h
    cases r with
    | none =>
      injection h with _ hw
      exact hw.symm
    | some q => exact absurd h (by simp)

theorem svcAdjustStock_insufficient {w : W} {pid : Nat} {d : Int} {p : Product}
    (hg : getProduct w.session.pending pid = some p)
    (hneg : p.quantity + d < 0) :
    svcAdjustStock w pid d = (.error .insufficientStock, w) := by
  unfold svcAdjustStock svcGet
  rw [hg]
  simp only
  rw [if_pos hneg]

theorem svcAdjustStock_ok_eq {w : W} {pid : Nat} {d : Int} {p : Product}
    (hg : getProduct w.session.pending pid = some p)
    (hpos : ¬p.quantity + d < 0) :
    svcAdjustStock w pid d = svcUpdate w pid { quantity := some (p.quantity + d) } none := by
  unfold svcAdjustStock svcGet
  rw [hg]
  simp only
  rw [if_neg hpos]

theorem svcAdjustStock_notFound {w : W} {pid : Nat} {d : Int}
    (hg : getProduct w.session.pending pid = none) :
    svcAdjustStock w pid d = (.error .notFound, w) := by
  unfold svcAdjustStock svcGet
  rw [hg]

theorem svcAdjustStock_error_frame {w : W} {pid : Nat} {d : Int} {e : SvcErr}
    {w' : W} (hsync : w.session.pending = w.session.committed)
    (h : svcAdjustStock w pid d = (.error e, w')) : w' = w := by
  cases hg : getProduct w.session.pending pid with
  | none =>
    rw [svcAdjustStock_notFound hg] at h
    injection h with _ hw
    exact hw.symm
  | some p =>
    by_cases hneg : p.quantity + d < 0
    · rw [svcAdjustStock_insufficient hg hneg] at h
      injection h with _ hw
      exact hw.symm
    · rw [svcAdjustStock_ok_eq hg hneg] at h
      exact svcUpdate_error_frame hsync h

theorem svcSetActive_ok {w : W} {pid : Nat} {flag : Bool} {p : Product} {w' : W}
    (h : svcSetActive w pid flag = (.ok p, w')) :
    ∃ w1, svcUpdate w pid { isActive := some flag } none = (.ok p, w1) ∧
      w' = W.mk w1.session
        (publish_message w1.mq
          (if flag then .productActivated p.id p.sku else .productDeactivated p.id p.sku)) := by
  unfold svcSetActive at h
  cases hu : svcUpdate w pid { isActive := some flag } none with
  | mk r w1 =>
    rw [hu] at h
    cases r with
    | error e => exact absurd h (by simp)
    | ok q =>
      injection h with hp hw
      injection hp with hpc
      subst hpc
      exact ⟨w1, rfl, by rw [← hw]⟩

theorem svcSetActive_error_frame {w : W} {pid : Nat} {flag : Bool} {e : SvcErr}
    {w' : W} (hsync : w.session.pending = w.session.committed)
    (h : svcSetActive w pid flag = (.error e, w')) : w' = w := by
  unfold svcSetActive at h
  cases hu : svcUpdate w pid { isActive := some flag } none with
  | mk r w1 =>
    rw [hu] at h
    cases r with
    | error e1 =>
      injection h with he hw
      rw [← hw]
      exact svcUpdate_error_frame hsync hu
    | ok q => exact absurd h (by simp)

/-- Both stores of a world satisfy the `quantity >= 0` constraint. -/
def worldNonneg (w : W) : Prop :=
  storeNonneg w.session.pending ∧ storeNonneg w.session.committed

theorem svcUpdate_nonneg {w : W} {pid : Nat} {u : ProductUpdate}
    {ev : Option Nat} (hw : worldNonneg w)
    (hu : ∀ q, u.quantity = some q → 0 ≤ q) :
    worldNonneg (svcUpdate w pid u ev).2 := by
  obtain ⟨hp, hc⟩ := hw
  cases hr : svcUpdate w pid u ev with
  | mk r w' =>
    cases r with
    | error e =>
      unfold svcUpdate at hr
      cases hg : getProduct w.session.pending pid with
      | none =>
        rw [hg] at hr
        injection hr with _ hw'
        exact hw' ▸ ⟨hp, hc⟩
      | some cur =>
        rw [hg] at hr
        simp only at hr
        split at hr
        · injection hr with _ hw'
          exact hw' ▸ ⟨hp, hc⟩
        · rw [update_product_some hg] at hr
          by_cases h1 : applyPatch cur u = cur
          · rw [if_pos h1] at hr
            exact absurd hr (by simp)
          · rw [if_neg h1] at hr
            by_cases h2 : skuConflict w.session.pending pid (applyPatch cur u).sku
            · rw [if_pos h2] at hr
              injection hr with _ hw'
              exact hw' ▸ ⟨hc, hc⟩
            · rw [if_neg h2] at hr
              exact absurd hr (by simp)
    | ok p =>
      rcases svcUpdate_ok_cases hr with ⟨cur, hg, _, hcase⟩
      have hq2 : 0 ≤ (bumped cur u).quantity := by
        show 0 ≤ (applyPatch cur u).quantity
        unfold applyPatch
        cases hqu : u.quantity with
        | none => simpa using hp cur (getProduct_mem hg)
        | some q => simpa [hqu] using hu q hqu
      rcases hcase with ⟨_, hpc, hsess⟩ | ⟨_, hpc, hsess⟩
      · exact ⟨by rw [hsess]; exact hp, by rw [hsess]; exact hp⟩
      · subst hpc
        exact ⟨by rw [hsess]; exact putProduct_nonneg hp hq2,
               by rw [hsess]; exact putProduct_nonneg hp hq2⟩

theorem svcAdjustStock_nonneg {w : W} {pid : Nat} {d : Int}
    (hw : worldNonneg w) : worldNonneg (svcAdjustStock w pid d).2 := by
  cases hg : getProduct w.session.pending pid with
  | none => rw [svcAdjustStock_notFound hg]; exact hw
  | some p =>
    by_cases hneg : p.quantity + d < 0
    · rw [svcAdjustStock_insufficient hg hneg]
      exact hw
    · rw [svcAdjustStock_ok_eq hg hneg]
      exact svcUpdate_nonneg hw (fun q hq => by
        injection hq with hq'
        exact hq' ▸ not_lt.mp hneg)

/-- A sequence of `adjust_stock` calls, each on the state the previous
one left behind. -/
def runAdjustCalls (w : W) : List (Nat × Int) → W
  | [] => w
  | c :: rest => runAdjustCalls (svcAdjustStock w c.1 c.2).2 rest

theorem runAdjustCalls_nonneg {calls : List (Nat × Int)} {w : W}
    (hw : worldNonneg w) : worldNonneg (runAdjustCalls w calls) := by
  induction calls generalizing w with
  | nil => exact hw
  | cons c rest ih => exact ih (svcAdjustStock_nonneg hw)

theorem publish_connected (m : MQState) (e : PubEvent) :
    (publish_message m e).connected = m.connected := rfl

theorem publish_attempts (m : MQState) (e : PubEvent) :
    (publish_message m e).attempts = m.attempts ++ [e] := rfl

theorem publish_delivered_connected {m : MQState} (e : PubEvent)
    (h : m.connected = true) :
    (publish_message m e).delivered = m.delivered ++ [e] := by
  unfold publish_message
  simp [h]

theorem publish_delivered_offline {m : MQState} (e : PubEvent)
    (h : m.connected = false) :
    (publish_message m e).delivered = m.delivered := by
  unfold publish_message
  simp [h]

/-- Atomic-failure frame of a mutating service call: a call that raises
leaves the world (store and message queue) exactly as it was. -/
def failFrame (run : W → Except SvcErr Product × W) : Prop :=
  ∀ w e w', w.session.pending = w.session.committed →
    run w = (.error e, w') → w' = w

/-- Success shape of a mutating service call: the session ends with its
pending state committed and the call's events are handed to the
publisher; they reach the broker exactly when the exchange is
available. -/
def okPublishes (run : W → Except SvcErr Product × W)
    (evs : Product → List PubEvent) : Prop :=
  ∀ w p w', run w = (.ok p, w') →
    w'.session.pending = w'.session.committed ∧
    w'.mq.attempts = w.mq.attempts ++ evs p ∧
    (w.mq.connected = true → w'.mq.delivered = w.mq.delivered ++ evs p) ∧
    (w.mq.connected = false → w'.mq.delivered = w.mq.delivered)

theorem svcUpdate_okPublishes (pid : Nat) (u : ProductUpdate) (ev : Option Nat) :
    okPublishes (fun w => svcUpdate w pid u ev)
      (fun p => [.productUpdated p.id p.sku p.name p.price]) := by
  intro w p w' h
  rcases svcUpdate_ok_cases h with ⟨cur, _, hmq, hcase⟩
  refine ⟨?_, ?_, ?_, ?_⟩
  · rcases hcase with ⟨_, _, hsess⟩ | ⟨_, _, hsess⟩
    · rw [hsess]; rfl
    · rw [hsess]
  · rw [hmq]; exact publish_attempts ..
  · intro hcon; rw [hmq]; exact publish_delivered_connected _ hcon
  · intro hcon; rw [hmq]; exact publish_delivered_offline _ hcon

theorem svcCreate_okPublishes (d : ProductCreate) :
    okPublishes (fun w => svcCreate w d)
      (fun p => [.productCreated p.id p.sku p.name p.price]) := by
  intro w p w' h
  rcases svcCreate_ok h with ⟨_, hmq, hsess⟩
  refine ⟨by rw [hsess], ?_, ?_, ?_⟩
  · rw [hmq]; exact publish_attempts ..
  · intro hcon; rw [hmq]; exact publish_delivered_connected _ hcon
  · intro hcon; rw [hmq]; exact publish_delivered_offline _ hcon

theorem svcDelete_okPublishes (pid : Nat) :
    okPublishes (fun w => svcDelete w pid)
      (fun p => [.productDeleted p.id p.sku]) := by
  intro w p w' h
  rcases svcDelete_ok h with ⟨hmq, hsess⟩
  refine ⟨hsess, ?_, ?_, ?_⟩
  · rw [hmq]; exact publish_attempts ..
  · intro hcon; rw [hmq]; exact publish_delivered_connected _ hcon
  · intro hcon; rw [hmq]; exact publish_delivered_offline _ hcon

theorem svcAdjustStock_okPublishes (pid : Nat) (d : Int) :
    okPublishes (fun w => svcAdjustStock w pid d)
      (fun p => [.productUpdated p.id p.sku p.name p.price]) := by
  intro w p w' h
  change svcAdjustStock w pid d = (Except.ok p, w') at h
  cases hg : getProduct w.session.pending pid with
  | none => rw [svcAdjustStock_notFound hg] at h; exact absurd h (by simp)
  | some q =>
    by_cases hneg : q.quantity + d < 0
    · rw [svcAdjustStock_insufficient hg hneg] at h
      exact absurd h (by simp)
    · rw [svcAdjustStock_ok_eq hg hneg] at h
      exact svcUpdate_okPublishes pid { quantity := some (q.quantity + d) } none w p w' h

theorem svcSetActive_okPublishes (pid : Nat) (flag : Bool) :
    okPublishes (fun w => svcSetActive w pid flag)
      (fun p => [.productUpdated p.id p.sku p.name p.price,
                 if flag then .productActivated p.id p.sku
                 else .productDeactivated p.id p.sku]) := by
  intro w p w' h
  rcases svcSetActive_ok h with ⟨w1, hu, hw'⟩
  rcases svcUpdate_okPublishes pid { isActive := some flag } none w p w1 hu
    with ⟨hsync1, hatt1, hdelc1, hdelo1⟩
  have hcon1 : w1.mq.connected = w.mq.connected := by
    rcases svcUpdate_ok_cases hu with ⟨cur, _, hmq, _⟩
    rw [hmq]; exact publish_connected ..
  refine ⟨by rw [hw']; exact hsync1, ?_, ?_, ?_⟩
  · rw [hw']
    show (publish_message w1.mq _).attempts = _
    rw [publish_attempts, hatt1, List.append_assoc]
    rfl
  · intro hcon
    rw [hw']
    show (publish_message w1.mq _).delivered = _
    rw [publish_delivered_connected _ (by rw [hcon1]; exact hcon),
        hdelc1 hcon, List.append_assoc]
    rfl
  · intro hcon
    rw [hw']
    show (publish_message w1.mq _).delivered = _
    rw [publish_delivered_offline _ (by rw [hcon1]; exact hcon), hdelo1 hcon]

theorem Session.commit_sync {s : Session} (h : s.pending = s.committed) :
    s.commit = s := by
  cases s with
  | mk c p =>
    simp only at h
    subst h
    rfl

theorem svcAdjustStock_zero {w : W} {pid : Nat} {p : Product}
    (hsync : w.session.pending = w.session.committed)
    (hg : getProduct w.session.pending pid = some p)
    (hq : 0 ≤ p.quantity) :
    svcAdjustStock w pid 0 =
      (.ok p, W.mk w.session
        (publish_message w.mq (.productUpdated p.id p.sku p.name p.price))) := by
  have hnn : ¬p.quantity + 0 < 0 := by simpa using not_lt.mpr hq
  rw [svcAdjustStock_ok_eq hg hnn]
  unfold svcUpdate
  rw [hg]
  simp only
  rw [update_product_some hg]
  have hpatch : applyPatch p { quantity := some (p.quantity + 0) } = p := by
    unfold applyPatch
    simp
  rw [if_pos hpatch]
  simp only
  rw [Session.commit_sync hsync]
  simp

theorem handle_order_created_noop {pay : OrderPayload} (w : W)
    (h : cleanItems pay = []) : handle_order_created pay w = .ok w := by
  unfold handle_order_created
  simp [h]

theorem handle_order_items_delta_noop {pay : OrderPayload} (w : W)
    (h : cleanDeltas pay = []) : handle_order_items_delta pay w = .ok w := by
  unfold handle_order_items_delta
  simp [h]

theorem handle_order_cancelled_noop {pay : OrderPayload} (w : W)
    (h : cleanItems pay = []) : handle_order_cancelled pay w = .ok w := by
  unfold handle_order_cancelled
  simp [h]

theorem handle_order_deleted_noop {pay : OrderPayload} (w : W)
    (h : cleanItems pay = []) : handle_order_deleted pay w = .ok w := by
  unfold handle_order_deleted
  simp [h]

theorem consumerHandle_unmatched {rk : String} (h : consumerRoute rk = none)
    (pay : OrderPayload) (w : W) : consumerHandle rk pay w = .ok w := by
  unfold consumerHandle
  rw [h]

deriving instance DecidableEq for Except

instance (s : Store) : Decidable (storeNonneg s) :=
  List.decidableBAll _ s

instance (w : W) : Decidable (worldNonneg w) :=
  instDecidableAnd

/-!
## Claims
-/

/-- The §8 two-writer state: writer B has decremented the sample product
by 2 (quantity 8, version 2) while writer A still believes version 1. -/
def twoWriterW : W := (svcAdjustStock sampleW 1 (-2)).2

/-- The sample product after the row is renamed to `gizmo`. -/
def renamedProduct : Product := ⟨1, "SKU1", "gizmo", 5, 10, true, 2⟩

/-- The world after renaming the sample product. -/
def renamedW : W := ⟨⟨[renamedProduct], [renamedProduct]⟩,
  ⟨true, [.productUpdated 1 "SKU1" "gizmo" 5], [.productUpdated 1 "SKU1" "gizmo" 5]⟩⟩

/-- An empty catalog with the exchange available. -/
def emptyW : W := ⟨⟨[], []⟩, ⟨true, [], []⟩⟩

/-- A payload whose items and deltas all get filtered out: a malformed
item, a zero delta and a malformed delta. -/
def malformedPay : OrderPayload := ⟨some 9, none, none, [none], [some (1, 0), none]⟩

/-- The world after a successful `set_active(1, true)` on the sample
catalog (the flag was already true, so the row is unchanged but both
events are still published). -/
def activatedW : W := ⟨sampleSession,
  ⟨true, [.productUpdated 1 "SKU1" "widget" 5, .productActivated 1 "SKU1"],
         [.productUpdated 1 "SKU1" "widget" 5, .productActivated 1 "SKU1"]⟩⟩

/-- C1 (code bug): the claim — and the handler's own docstring
("Transaction atomique : si un item est insuffisant -> rollback complet")
— says a failed `order.created` reservation commits zero quantity
mutations.  But `update_product` commits inside every `adjust_stock`
call, so on items `[(1,6), (1,6)]` against a product with quantity 10
the first decrement is already durably committed (quantity 4, version 2,
`product.updated` delivered) when the second item fails; the
`db.rollback()` in the handler rolls back nothing, and the handler then
publishes one `order.rejected`.  This theorem evaluates the handler at
that failing input. -/
theorem C1_order_created_partial_commit :
    handle_order_created ⟨some 77, none, none, [some (1, 6), some (1, 6)], []⟩ sampleW =
      .ok (W.mk (Session.mk [⟨1, "SKU1", "widget", 5, 4, true, 2⟩]
                            [⟨1, "SKU1", "widget", 5, 4, true, 2⟩])
        ⟨true,
         [.productUpdated 1 "SKU1" "widget" 5,
          .orderRejectedItems (some 77) [(1, 6), (1, 6)]],
         [.productUpdated 1 "SKU1" "widget" 5,
          .orderRejectedItems (some 77) [(1, 6), (1, 6)]]⟩) := by
  decide

/-- C2: starting from a store satisfying the `quantity >= 0` constraint,
no sequence of `adjust_stock` calls can drive any persisted quantity
negative; and a single call whose delta would make the quantity negative
returns `InsufficientStock` with the whole world (quantity, version,
events) exactly as before. -/
theorem C2_adjust_stock_nonneg :
    (∀ (calls : List (Nat × Int)) (w : W), worldNonneg w →
       worldNonneg (runAdjustCalls w calls)) ∧
    (∀ (w : W) (pid : Nat) (d : Int) (p : Product),
       getProduct w.session.pending pid = some p →
       p.quantity + d < 0 →
       svcAdjustStock w pid d = (.error .insufficientStock, w)) :=
  ⟨fun _ _ hw => runAdjustCalls_nonneg hw,
   fun _ _ _ _ hg hneg => svcAdjustStock_insufficient hg hneg⟩

/-- Witness for C2: the −3/+3 round trip on the sample catalog keeps all
quantities non-negative, and a −11 call against quantity 10 fails with
`InsufficientStock` leaving the world untouched. -/
theorem C2_adjust_stock_nonneg_witness :
    worldNonneg sampleW ∧
    worldNonneg (runAdjustCalls sampleW [(1, -3), (1, 3)]) ∧
    getProduct sampleW.session.pending 1 = some sampleProduct ∧
    sampleProduct.quantity + (-11) < 0 ∧
    svcAdjustStock sampleW 1 (-11) = (.error .insufficientStock, sampleW) :=
  ⟨by decide, C2_adjust_stock_nonneg.1 [(1, -3), (1, 3)] sampleW (by decide),
   by decide, by decide,
   C2_adjust_stock_nonneg.2 sampleW 1 (-11) sampleProduct (by decide) (by decide)⟩

/-- C3 counterexample: an update whose patch sets nothing succeeds —
the service returns the product and publishes `product.updated` — while
the persisted version stays 1, refuting "no update succeeds without
advancing it". -/
theorem C3_empty_patch_counterexample :
    svcUpdate sampleW 1 ⟨none, none, none, none, none⟩ none =
      (.ok sampleProduct,
       W.mk sampleSession
         ⟨true, [.productUpdated 1 "SKU1" "widget" 5],
                [.productUpdated 1 "SKU1" "widget" 5]⟩) ∧
    sampleProduct.version = 1 := by
  exact ⟨by decide, rfl⟩

/-- C3 (amended): `version` starts at 1 on create; a successful update
whose patch produces a net field change persists exactly `version + 1`;
an update whose patch changes nothing succeeds without a write and
leaves the persisted version unchanged. -/
theorem C3_version_semantics :
    (∀ (w : W) (d : ProductCreate) (p : Product) (w' : W),
       svcCreate w d = (.ok p, w') → p.version = 1) ∧
    (∀ (w : W) (pid : Nat) (u : ProductUpdate) (ev : Option Nat)
       (cur p : Product) (w' : W),
       getProduct w.session.pending pid = some cur →
       svcUpdate w pid u ev = (.ok p, w') →
       getProduct w'.session.committed pid = some p ∧
       ((applyPatch cur u = cur ∧ p = cur) ∨
        (applyPatch cur u ≠ cur ∧ p.version = cur.version + 1))) := by
  constructor
  · intro w d p w' h
    exact (svcCreate_ok h).1
  · intro w pid u ev cur p w' hg h
    rcases svcUpdate_ok_cases h with ⟨cur2, hg2, _, hcase⟩
    have hcc : cur2 = cur := by
      rw [hg] at hg2
      injection hg2 with hcc2
      exact hcc2.symm
    subst hcc
    rcases hcase with ⟨hnc, hpc, hsess⟩ | ⟨hnc, hpc, hsess⟩
    · subst hpc
      refine ⟨?_, Or.inl ⟨hnc, rfl⟩⟩
      rw [hsess]
      exact hg
    · subst hpc
      refine ⟨?_, Or.inr ⟨hnc, rfl⟩⟩
      rw [hsess]
      exact getProduct_putProduct hg rfl

/-- Witness for C3: creating on an empty catalog yields version 1, and
renaming the sample product is a net change bumping the version to 2. -/
theorem C3_version_semantics_witness :
    sampleProduct.version = 1 ∧
    (getProduct renamedW.session.committed 1 = some renamedProduct ∧
     ((applyPatch sampleProduct ⟨none, some "gizmo", none, none, none⟩ = sampleProduct ∧
       renamedProduct = sampleProduct) ∨
      (applyPatch sampleProduct ⟨none, some "gizmo", none, none, none⟩ ≠ sampleProduct ∧
       renamedProduct.version = sampleProduct.version + 1))) :=
  ⟨C3_version_semantics.1 emptyW ⟨"SKU1", "widget", 5, 10, true⟩ sampleProduct
     (W.mk (Session.mk [sampleProduct] [sampleProduct])
       ⟨true, [.productCreated 1 "SKU1" "widget" 5],
              [.productCreated 1 "SKU1" "widget" 5]⟩)
     (by decide),
   C3_version_semantics.2 sampleW 1 ⟨none, some "gizmo", none, none, none⟩ none
     sampleProduct renamedProduct renamedW (by decide) (by decide)⟩

/-- C4: an update supplying an `expected_version` different from the
current persisted version fails with `VersionConflict` and returns the
world unchanged — the pre-check fires before any storage write. -/
theorem C4_version_conflict_precheck :
    ∀ (w : W) (pid : Nat) (u : ProductUpdate) (cur : Product) (ev : Nat),
      getProduct w.session.pending pid = some cur →
      ev ≠ cur.version →
      svcUpdate w pid u (some ev) = (.error .versionConflict, w) :=
  fun _ _ _ _ _ hg hv => svcUpdate_conflict hg hv

/-- Witness for C4 — the §8 two-writer scenario: after writer B bumps
the product to quantity 8 / version 2, writer A's update asserting
version 1 fails with `VersionConflict` and the product stays at
quantity 8, version 2. -/
theorem C4_version_conflict_precheck_witness :
    getProduct twoWriterW.session.pending 1 = some ⟨1, "SKU1", "widget", 5, 8, true, 2⟩ ∧
    (1 : Nat) ≠ 2 ∧
    svcUpdate twoWriterW 1 ⟨none, some "X", none, none, none⟩ (some 1) =
      (.error .versionConflict, twoWriterW) ∧
    getProduct twoWriterW.session.committed 1 = some ⟨1, "SKU1", "widget", 5, 8, true, 2⟩ :=
  ⟨by decide, by decide,
   C4_version_conflict_precheck twoWriterW 1 ⟨none, some "X", none, none, none⟩
     ⟨1, "SKU1", "widget", 5, 8, true, 2⟩ 1 (by decide) (by decide),
   by decide⟩

/-- C5 counterexample: an `order.cancelled` message whose item
references an absent product makes the handler raise `NotFoundError`,
yet the consumer loop returns normally and acknowledges the message —
the exception is logged and swallowed, not re-raised. -/
theorem C5_exception_swallowed_counterexample :
    handle_order_cancelled ⟨some 3, none, none, [some (9, 1)], []⟩ sampleW =
      .raised sampleW ∧
    consumeMessage "order.cancelled" ⟨some 3, none, none, [some (9, 1)], []⟩ sampleW =
      .ok (true, sampleW) :=
  ⟨by decide, by decide⟩

/-- C5 (amended): the consumer loop catches and logs every handler
exception and acknowledges the message in all cases; nothing is ever
re-raised to the broker's acknowledgment layer, so its requeue policy
never sees the failure. -/
theorem C5_consumer_always_acks :
    ∀ (rk : String) (pay : OrderPayload) (w : W),
      ∃ w', consumeMessage rk pay w = .ok (true, w') := by
  intro rk pay w
  unfold consumeMessage
  cases consumerHandle rk pay w <;> exact ⟨_, rfl⟩

/-- C6 counterexample: `consumer_handler` has no branch for
`order.created`; the key is unmatched, so a reservation payload with
available stock is dropped with the world unchanged, while the
stock-reservation handler would have mutated it. -/
theorem C6_order_created_not_dispatched :
    consumerRoute "order.created" = none ∧
    consumerHandle "order.created" ⟨some 77, none, none, [some (1, 6)], []⟩ sampleW =
      .ok sampleW ∧
    handle_order_created ⟨some 77, none, none, [some (1, 6)], []⟩ sampleW ≠
      .ok sampleW :=
  ⟨by decide, by decide, by decide⟩

/-- C6 (amended): the seven keys wired in `consumer_handler`
(`order.items_delta`, `order.cancelled`, `order.rejected`,
`order.deleted`, `order.updated`, `order.request_price`,
`order.ready_for_stock`) dispatch to their corresponding handlers;
`order.created` is not in the table, and every unmatched key — including
it — is logged and dropped without mutating state. -/
theorem C6_dispatch_table :
    (∀ pay w, consumerHandle "order.items_delta" pay w = handle_order_items_delta pay w) ∧
    (∀ pay w, consumerHandle "order.cancelled" pay w = handle_order_cancelled pay w) ∧
    (∀ pay w, consumerHandle "order.rejected" pay w = handle_order_rejected pay w) ∧
    (∀ pay w, consumerHandle "order.deleted" pay w = handle_order_deleted pay w) ∧
    (∀ pay w, consumerHandle "order.updated" pay w = handle_order_updated pay w) ∧
    (∀ pay w, consumerHandle "order.request_price" pay w = handle_order_price_request pay w) ∧
    (∀ pay w, consumerHandle "order.ready_for_stock" pay w = handle_order_ready_for_stock pay w) ∧
    consumerRoute "order.created" = none ∧
    (∀ rk, consumerRoute rk = none → ∀ pay w, consumerHandle rk pay w = .ok w) :=
  ⟨fun _ _ => rfl, fun _ _ => rfl, fun _ _ => rfl, fun _ _ => rfl,
   fun _ _ => rfl, fun _ _ => rfl, fun _ _ => rfl, by decide,
   fun _ h pay w => consumerHandle_unmatched h pay w⟩

/-- Witness for C6: applying the unmatched-key part of the table at
`customer.created`, a key outside the table, leaves the world
untouched. -/
theorem C6_dispatch_table_witness :
    consumerRoute "customer.created" = none ∧
    consumerHandle "customer.created" malformedPay sampleW = .ok sampleW :=
  ⟨by decide,
   C6_dispatch_table.2.2.2.2.2.2.2.2 "customer.created" (by decide) malformedPay sampleW⟩

/-- C7 counterexample: with the exchange unavailable, `update` persists
the new quantity (committed store changed to quantity 7, version 2) and
returns success, while `publish_message` swallows the failure and no
event is delivered — success with the mutation persisted but the event
unpublished. -/
theorem C7_persisted_without_event_counterexample :
    svcUpdate sampleWOffline 1 ⟨none, none, none, some 7, none⟩ none =
      (.ok ⟨1, "SKU1", "widget", 5, 7, true, 2⟩,
       W.mk (Session.mk [⟨1, "SKU1", "widget", 5, 7, true, 2⟩]
                        [⟨1, "SKU1", "widget", 5, 7, true, 2⟩])
         ⟨false, [.productUpdated 1 "SKU1" "widget" 5], []⟩) ∧
    ([] : List PubEvent) ≠ [.productUpdated 1 "SKU1" "widget" 5] :=
  ⟨by decide, by decide⟩

/-- C7 (amended): every mutating `ProductService` call either fails
leaving the world exactly as it was (no persistence, no event), or
persists the change and hands the corresponding event(s) to the
publisher; the events reach the broker exactly when the exchange is
available, and a delivery failure is swallowed, so a call can succeed
with the mutation persisted but no event delivered. -/
theorem C7_mutation_event_semantics :
    (∀ d, failFrame (fun w => svcCreate w d)) ∧
    (∀ pid u ev, failFrame (fun w => svcUpdate w pid u ev)) ∧
    (∀ pid, failFrame (fun w => svcDelete w pid)) ∧
    (∀ pid d, failFrame (fun w => svcAdjustStock w pid d)) ∧
    (∀ pid flag, failFrame (fun w => svcSetActive w pid flag)) ∧
    (∀ d, okPublishes (fun w => svcCreate w d)
       (fun p => [.productCreated p.id p.sku p.name p.price])) ∧
    (∀ pid u ev, okPublishes (fun w => svcUpdate w pid u ev)
       (fun p => [.productUpdated p.id p.sku p.name p.price])) ∧
    (∀ pid, okPublishes (fun w => svcDelete w pid)
       (fun p => [.productDeleted p.id p.sku])) ∧
    (∀ pid d, okPublishes (fun w => svcAdjustStock w pid d)
       (fun p => [.productUpdated p.id p.sku p.name p.price])) ∧
    (∀ pid flag, okPublishes (fun w => svcSetActive w pid flag)
       (fun p => [.productUpdated p.id p.sku p.name p.price,
                  if flag then .productActivated p.id p.sku
                  else .productDeactivated p.id p.sku])) ∧
    (∀ (m : MQState) (e : PubEvent), m.connected = false →
       (publish_message m e).delivered = m.delivered) :=
  ⟨fun _ _ _ _ _ h => svcCreate_error_frame h,
   fun _ _ _ _ _ _ hs h => svcUpdate_error_frame hs h,
   fun _ _ _ _ _ h => svcDelete_error_frame h,
   fun _ _ _ _ _ hs h => svcAdjustStock_error_frame hs h,
   fun _ _ _ _ _ hs h => svcSetActive_error_frame hs h,
   fun d => svcCreate_okPublishes d,
   fun pid u ev => svcUpdate_okPublishes pid u ev,
   fun pid => svcDelete_okPublishes pid,
   fun pid d => svcAdjustStock_okPublishes pid d,
   fun pid flag => svcSetActive_okPublishes pid flag,
   fun _ e h => publish_delivered_offline e h⟩

/-- Witness for C7: an insufficient-stock failure leaves the sample
world untouched, and a successful `set_active` persists and publishes
both its events. -/
theorem C7_mutation_event_semantics_witness :
    sampleW = sampleW ∧
    activatedW.session.pending = activatedW.session.committed ∧
    activatedW.mq.attempts = sampleW.mq.attempts ++
      [.productUpdated 1 "SKU1" "widget" 5, .productActivated 1 "SKU1"] :=
  have hfail := C7_mutation_event_semantics.2.2.2.1 1 (-11) sampleW
    .insufficientStock sampleW (by decide) (by decide)
  have hok := C7_mutation_event_semantics.2.2.2.2.2.2.2.2.2.1 1 true sampleW
    sampleProduct activatedW (by decide)
  ⟨hfail, hok.1, hok.2.1⟩

/-- C8 counterexample: a delta-0 `adjust_stock` call performs no store
write — the session (quantity and version) is unchanged — but it still
publishes a `product.updated` event, refuting "publish no event". -/
theorem C8_zero_delta_counterexample :
    svcAdjustStock sampleW 1 0 =
      (.ok sampleProduct,
       W.mk sampleSession
         ⟨true, [.productUpdated 1 "SKU1" "widget" 5],
                [.productUpdated 1 "SKU1" "widget" 5]⟩) ∧
    [PubEvent.productUpdated 1 "SKU1" "widget" 5] ≠ ([] : List PubEvent) :=
  ⟨by decide, by decide⟩

/-- C8 (amended): a delta-0 `adjust_stock` performs no persisted write
(session, quantity and version unchanged) but still publishes
`product.updated`; an order event whose items/deltas are empty after
filtering is a complete no-op — no store write and no publish. -/
theorem C8_noop_semantics :
    (∀ (w : W) (pid : Nat) (p : Product),
       w.session.pending = w.session.committed →
       getProduct w.session.pending pid = some p →
       0 ≤ p.quantity →
       svcAdjustStock w pid 0 =
         (.ok p, W.mk w.session
            (publish_message w.mq (.productUpdated p.id p.sku p.name p.price)))) ∧
    (∀ pay w, cleanItems pay = [] → handle_order_created pay w = .ok w) ∧
    (∀ pay w, cleanDeltas pay = [] → handle_order_items_delta pay w = .ok w) ∧
    (∀ pay w, cleanItems pay = [] →
       handle_order_cancelled pay w = .ok w ∧ handle_order_deleted pay w = .ok w) :=
  ⟨fun _ _ _ hs hg hq => svcAdjustStock_zero hs hg hq,
   fun _ w h => handle_order_created_noop w h,
   fun _ w h => handle_order_items_delta_noop w h,
   fun _ w h => ⟨handle_order_cancelled_noop w h, handle_order_deleted_noop w h⟩⟩

/-- Witness for C8: the zero-delta call on the sample world and the
all-entries-filtered payload. -/
theorem C8_noop_semantics_witness :
    svcAdjustStock sampleW 1 0 =
      (.ok sampleProduct,
       W.mk sampleW.session
         (publish_message sampleW.mq (.productUpdated 1 "SKU1" "widget" 5))) ∧
    handle_order_created malformedPay sampleW = .ok sampleW ∧
    handle_order_items_delta malformedPay sampleW = .ok sampleW ∧
    handle_order_cancelled malformedPay sampleW = .ok sampleW :=
  ⟨C8_noop_semantics.1 sampleW 1 sampleProduct rfl (by decide) (by decide),
   C8_noop_semantics.2.1 malformedPay sampleW (by decide),
   C8_noop_semantics.2.2.1 malformedPay sampleW (by decide),
   (C8_noop_semantics.2.2.2 malformedPay sampleW (by decide)).1⟩

/-- C9 (code bug): the claim — and the handler's own docstring
("Transaction atomique : si un delta ne passe pas ... tout est
rollback") — says a failed check commits no changes.  On deltas
`[(1,+6), (1,+6)]` against quantity 10 the pre-check passes both
entries against the same unadjusted quantity, the first `-6` is durably
committed (quantity 4, version 2), the second fails `InsufficientStock`,
the handler's `db.rollback()` undoes nothing, and one `order.rejected`
is published with the store still at quantity 4. -/
theorem C9_items_delta_partial_commit :
    handle_order_items_delta ⟨some 5, none, none, [], [some (1, 6), some (1, 6)]⟩ sampleW =
      .ok (W.mk (Session.mk [⟨1, "SKU1", "widget", 5, 4, true, 2⟩]
                            [⟨1, "SKU1", "widget", 5, 4, true, 2⟩])
        ⟨true,
         [.productUpdated 1 "SKU1" "widget" 5,
          .orderRejectedDeltas (some 5) [(1, 6), (1, 6)]],
         [.productUpdated 1 "SKU1" "widget" 5,
          .orderRejectedDeltas (some 5) [(1, 6), (1, 6)]]⟩) := by
  decide

/-- C10: every successful `set_active` call hands the publisher two
events, `product.updated` first (from the delegated `update`) and then
`product.activated`/`product.deactivated` per the flag; when the
exchange is available both are delivered in that order. -/
theorem C10_set_active_two_events :
    ∀ (w : W) (pid : Nat) (flag : Bool) (p : Product) (w' : W),
      svcSetActive w pid flag = (.ok p, w') →
      w'.mq.attempts = w.mq.attempts ++
        [.productUpdated p.id p.sku p.name p.price,
         if flag then .productActivated p.id p.sku
         else .productDeactivated p.id p.sku] ∧
      (w.mq.connected = true →
        w'.mq.delivered = w.mq.delivered ++
          [.productUpdated p.id p.sku p.name p.price,
           if flag then .productActivated p.id p.sku
           else .productDeactivated p.id p.sku]) := by
  intro w pid flag p w' h
  have hk := svcSetActive_okPublishes pid flag w p w' h
  exact ⟨hk.2.1, hk.2.2.1⟩

/-- Witness for C10: `set_active(1, true)` on the sample world delivers
`product.updated` then `product.activated`, in that order. -/
theorem C10_set_active_two_events_witness :
    activatedW.mq.attempts = sampleW.mq.attempts ++
      [.productUpdated 1 "SKU1" "widget" 5, .productActivated 1 "SKU1"] ∧
    activatedW.mq.delivered = sampleW.mq.delivered ++
      [.productUpdated 1 "SKU1" "widget" 5, .productActivated 1 "SKU1"] :=
  have hk := C10_set_active_two_events sampleW 1 true sampleProduct activatedW (by decide)
  ⟨hk.1, hk.2 rfl⟩
